import Mathlib

/-!
Verification of the Culture Pulse scoring and normalization engine
(repository `Innovation-RadarChart-culturePulse`).

The development shallowly embeds the numeric core of the repository:

* the per-category pulse scorers
  (`DataPull/PoliticsData.py`, `DataPull/TechData.py`, `DataPull/SportsData.py`),
* the recency test `_is_recent` shared by the pullers,
* the aggregation loop `CulturePulseRadarChart.collect_all_data`, and
* the relative-normalization transform
  `CulturePulseRadarChart.normalize_scores_relative` (`RadarChart.py`).

Conventions of the embedding:

* Python floats are idealized as exact rationals (`ℚ`); the sports volume
  component uses a real power `(n/100) ^ 0.7`, so the sports scorer lives
  in `ℝ`.  `round(x, 2)` is modelled as exact round-half-even to two
  decimal places (CPython's documented rounding rule).
* numpy float division by zero does not raise; it produces `nan`/`inf`.
  The value domain of the normalization transform is therefore `PyFloat`,
  a rational extended with `nan`, `inf` and `ninf`, with the operations
  the transform actually performs (including Python's `min(100, x)`,
  which returns `100` when `x` is `nan` because `nan < 100` is false).
* `datetime` values are reduced to a clock reading in seconds.  The
  outcome of `datetime.fromisoformat(published_at.replace('Z', '+00:00'))`
  is classified by the inductive `PubTs`: the field can be absent/falsy,
  unparsable, parse to a timezone-aware datetime (any string carrying an
  offset, e.g. the API's `Z` suffix), or parse to a naive datetime.
  Subtracting a timezone-aware datetime from the naive `datetime.now()`
  raises `TypeError` in Python; `_is_recent`'s bare `except` turns that
  into `False`, which the embedding records directly in the `aware` case.
* `timedelta.days` is floor division of the signed second difference
  by 86400, which is `Int.fdiv`.
-/

namespace CulturePulse

/-! ## Rounding: CPython `round(x, 2)` as exact round-half-even -/

/-- Round-half-even to an integer: nearest integer, ties going to the even
neighbour.  This is CPython's rounding rule for `round`. -/
def rndHE {α : Type*} [LinearOrderedField α] [FloorRing α] (x : α) : ℤ :=
  if x - (⌊x⌋ : α) < 1/2 then ⌊x⌋
  else if (1/2 : α) < x - (⌊x⌋ : α) then ⌊x⌋ + 1
  else if ⌊x⌋ % 2 = 0 then ⌊x⌋ else ⌊x⌋ + 1

/-- `round(x, 2)`: round-half-even to two decimal places. -/
def round2 {α : Type*} [LinearOrderedField α] [FloorRing α] (x : α) : α :=
  (rndHE (x * 100) : α) / 100

theorem rndHE_intCast {α : Type*} [LinearOrderedField α] [FloorRing α] (z : ℤ) :
    rndHE (z : α) = z := by
  simp [rndHE]

theorem rndHE_ge_floor {α : Type*} [LinearOrderedField α] [FloorRing α] (x : α) :
    ⌊x⌋ ≤ rndHE x := by
  unfold rndHE
  split_ifs <;> omega

theorem rndHE_le_floor_add_one {α : Type*} [LinearOrderedField α] [FloorRing α] (x : α) :
    rndHE x ≤ ⌊x⌋ + 1 := by
  unfold rndHE
  split_ifs <;> omega

theorem rndHE_mono {α : Type*} [LinearOrderedField α] [FloorRing α]
    {a b : α} (h : a ≤ b) : rndHE a ≤ rndHE b := by
  rcases eq_or_lt_of_le (Int.floor_mono h) with heq | hlt
  · unfold rndHE
    rw [heq]
    have hsub : a - (⌊b⌋ : α) ≤ b - (⌊b⌋ : α) := by linarith
    split_ifs <;> first | omega | linarith
  · calc rndHE a ≤ ⌊a⌋ + 1 := rndHE_le_floor_add_one a
    _ ≤ ⌊b⌋ := by omega
    _ ≤ rndHE b := rndHE_ge_floor b

theorem round2_mono {α : Type*} [LinearOrderedField α] [FloorRing α]
    {a b : α} (h : a ≤ b) : round2 a ≤ round2 b := by
  unfold round2
  have h100 : a * 100 ≤ b * 100 := by linarith
  have := rndHE_mono h100
  have hcast : ((rndHE (a * 100) : ℤ) : α) ≤ ((rndHE (b * 100) : ℤ) : α) :=
    Int.cast_le.mpr this
  linarith

/-- Any exact two-decimal value is a fixed point of `round2`. -/
theorem round2_cent {α : Type*} [LinearOrderedField α] [FloorRing α] (z : ℤ) :
    round2 ((z : α) / 100) = (z : α) / 100 := by
  have h : ((z : α) / 100) * 100 = (z : α) := by
    field_simp
  rw [round2, h, rndHE_intCast]

theorem round2_eq_self_of_mul_hundred {α : Type*} [LinearOrderedField α] [FloorRing α]
    (z : ℤ) (x : α) (h : x * 100 = (z : α)) : round2 x = x := by
  rw [round2, h, rndHE_intCast, ← h]
  exact mul_div_cancel_right₀ x (by norm_num)

theorem round2_zero {α : Type*} [LinearOrderedField α] [FloorRing α] :
    round2 (0 : α) = 0 := by
  have := round2_cent (α := α) 0
  simpa using this

theorem round2_hundred {α : Type*} [LinearOrderedField α] [FloorRing α] :
    round2 (100 : α) = 100 := by
  have := round2_cent (α := α) 10000
  norm_num at this
  simpa using this

theorem round2_nonneg {α : Type*} [LinearOrderedField α] [FloorRing α]
    {x : α} (hx : 0 ≤ x) : 0 ≤ round2 x := by
  have := round2_mono hx
  rwa [round2_zero] at this

theorem round2_le_hundred {α : Type*} [LinearOrderedField α] [FloorRing α]
    {x : α} (hx : x ≤ 100) : round2 x ≤ 100 := by
  have := round2_mono hx
  rwa [round2_hundred] at this

/-! ## Article data model -/

/-- Outcome of reading and parsing an article's `publishedAt` field.
`missing` covers an absent/`None`/empty value (`if not published_at`),
`malformed` a string on which `datetime.fromisoformat` raises,
`aware t` a string parsing to a timezone-aware datetime at epoch second `t`
(any string with a UTC offset, e.g. the API's `Z` suffix after the
`replace('Z', '+00:00')` rewrite), and `naive t` a string parsing to a
naive datetime whose local-clock reading is second `t`. -/
inductive PubTs where
  | missing
  | malformed
  | aware (t : ℤ)
  | naive (t : ℤ)
deriving DecidableEq

/-- One article record from the news API.  `source = none` models an
absent or falsy `source` entry (missing key, `None`, or the empty dict);
`source = some v` models a truthy source dict whose `.get('name')`
returns `v` (`v = none` when the dict has no `name` key or a `None`
name, `v = some s` for the string `s`). -/
structure Article where
  title : Option String
  source : Option (Option String)
  publishedAt : PubTs
deriving DecidableEq

/-- A news API response carrying the `articles` key: the article list plus
the provider-reported `totalResults`.  The scorers take an
`Option NewsData`; `none` models `not news_data or 'articles' not in
news_data`. -/
structure NewsData where
  articles : List Article
  totalResults : ℕ
deriving DecidableEq

/-- `article.get('source', {}).get('name')` for the articles passing the
truthiness filter `if article.get('source')`. -/
def sourceNames (articles : List Article) : List (Option String) :=
  articles.filterMap (·.source)

/-- `len(set(... name ... for article in articles if article.get('source')))`:
the number of distinct name values (possibly `None` or empty strings)
among articles with a truthy source dict. -/
def uniqueSources (articles : List Article) : ℕ :=
  (sourceNames articles).dedup.length

/-- `_is_recent(published_at, now)`, identical in all four pullers:

```python
if not published_at:
    return False
try:
    pub_date = datetime.fromisoformat(published_at.replace('Z', '+00:00'))
    return (now - pub_date).days < 1
except:
    return False
```

In the `aware` case `now - pub_date` subtracts an offset-aware datetime
from the naive `datetime.now()`, which raises `TypeError`; the bare
`except` converts that to `False`.  In the `naive` case
`timedelta.days` is floor division of the second difference by 86400. -/
def is_recent (publishedAt : PubTs) (now : ℤ) : Bool :=
  match publishedAt with
  | .missing => false
  | .malformed => false
  | .aware _ => false
  | .naive t => Int.fdiv (now - t) 86400 < 1

/-- `sum(1 for article in articles if self._is_recent(article.get('publishedAt'), now))`. -/
def recentCount (articles : List Article) (now : ℤ) : ℕ :=
  (articles.filter (fun a => is_recent a.publishedAt now)).length

/-! ## Substring matching (Python's `kw in title`) -/

/-- `isPrefixL needle hay`: `needle` is a prefix of `hay`. -/
def isPrefixL : List Char → List Char → Bool
  | [], _ => true
  | _ :: _, [] => false
  | a :: as, b :: bs => if a = b then isPrefixL as bs else false

/-- `containsL needle hay`: Python's substring test `needle in hay`. -/
def containsL (needle : List Char) : List Char → Bool
  | [] => isPrefixL needle []
  | c :: t => isPrefixL needle (c :: t) || containsL needle t

/-- Number of positions of `hay` at which `needle` occurs (the count of
occurrences of `needle` as a substring of `hay`). -/
def occCount (needle : List Char) : List Char → ℕ
  | [] => if isPrefixL needle [] then 1 else 0
  | c :: t => (if isPrefixL needle (c :: t) then 1 else 0) + occCount needle t

theorem containsL_iff_occCount_pos (needle hay : List Char) :
    containsL needle hay = true ↔ 0 < occCount needle hay := by
  induction hay with
  | nil =>
    cases h : isPrefixL needle [] <;> simp [containsL, occCount, h]
  | cons c t ih =>
    simp only [containsL, occCount, Bool.or_eq_true, ih]
    cases h : isPrefixL needle (c :: t) <;> simp [h]

/-! ## Sports keyword scan -/

/-- The fixed keyword list of `SportsDataPuller.calculate_pulse_score`. -/
def sportsKeywords : List String :=
  ["super bowl", "championship", "playoffs", "finals",
   "world cup", "olympics", "game", "victory", "win", "score"]

/-- `(article.get('title') or '').lower()`, as a character list
(`str.lower` maps `Char.toLower` over the characters). -/
def titleLower (a : Article) : List Char :=
  (a.title.getD "").data.map Char.toLower

/-- The keyword accumulation loop of the sports scorer:

```python
keyword_count = 0
for article in articles:
    title = (article.get('title') or '').lower()
    keyword_count += sum(1 for kw in sports_keywords if kw in title)
```

Each keyword contributes at most once per title (`kw in title` is a
containment test, not an occurrence count). -/
def keywordCount (articles : List Article) : ℕ :=
  (articles.map (fun a =>
    (sportsKeywords.filter (fun kw => containsL kw.data (titleLower a))).length)).sum

/-- Modelled from the claim's words: the number of (article, keyword)
pairs whose keyword occurs at least once (case-insensitively) in the
article's title. -/
def keywordTitlePairs (articles : List Article) : ℕ :=
  (articles.map (fun a =>
    (sportsKeywords.filter
      (fun kw => 0 < occCount kw.data (titleLower a))).length)).sum

/-- Modelled from the claim's words: the total number of occurrences of
the ten keywords in the lowered titles, summed over all articles and
keywords (a keyword appearing twice in one title counts twice). -/
def keywordOccurrenceTotal (articles : List Article) : ℕ :=
  (articles.map (fun a =>
    (sportsKeywords.map (fun kw => occCount kw.data (titleLower a))).sum)).sum

theorem keywordCount_eq_keywordTitlePairs (articles : List Article) :
    keywordCount articles = keywordTitlePairs articles := by
  unfold keywordCount keywordTitlePairs
  congr 1
  apply List.map_congr_left
  intro a _
  congr 1
  apply List.filter_congr
  intro kw _
  rw [Bool.eq_iff_iff]
  simp [containsL_iff_occCount_pos]

/-! ## Per-category pulse scorers -/

namespace PoliticsData

/-- `PoliticsDataPuller.calculate_pulse_score` (`DataPull/PoliticsData.py`):

```python
if not news_data or 'articles' not in news_data:
    return 0.0
articles = news_data.get('articles', [])
volume_score = min(40, (len(articles) / 100) * 40)
unique_sources = len(set(article.get('source', {}).get('name')
                         for article in articles if article.get('source')))
diversity_score = min(30, (unique_sources / 20) * 30)
now = datetime.now()
recent_articles = sum(1 for article in articles
                    if self._is_recent(article.get('publishedAt'), now))
recency_score = min(30, (recent_articles / 30) * 30)
return round(volume_score + diversity_score + recency_score, 2)
``` -/
def calculate_pulse_score (news_data : Option NewsData) (now : ℤ) : ℚ :=
  match news_data with
  | none => 0
  | some nd =>
    let articles := nd.articles
    let volume_score := min 40 ((articles.length : ℚ) / 100 * 40)
    let diversity_score := min 30 ((uniqueSources articles : ℚ) / 20 * 30)
    let recency_score := min 30 ((recentCount articles now : ℚ) / 30 * 30)
    round2 (volume_score + diversity_score + recency_score)

end PoliticsData

namespace TechData

/-- `TechDataPuller.calculate_pulse_score` (`DataPull/TechData.py`), textually
identical to the politics scorer. -/
def calculate_pulse_score (news_data : Option NewsData) (now : ℤ) : ℚ :=
  match news_data with
  | none => 0
  | some nd =>
    let articles := nd.articles
    let volume_score := min 40 ((articles.length : ℚ) / 100 * 40)
    let diversity_score := min 30 ((uniqueSources articles : ℚ) / 20 * 30)
    let recency_score := min 30 ((recentCount articles now : ℚ) / 30 * 30)
    round2 (volume_score + diversity_score + recency_score)

end TechData

namespace EnvironmentData

/-- `EnvironmentDataPuller.calculate_pulse_score`
(`DataPull/EnvironmentData.py`), textually identical to the politics scorer. -/
def calculate_pulse_score (news_data : Option NewsData) (now : ℤ) : ℚ :=
  match news_data with
  | none => 0
  | some nd =>
    let articles := nd.articles
    let volume_score := min 40 ((articles.length : ℚ) / 100 * 40)
    let diversity_score := min 30 ((uniqueSources articles : ℚ) / 20 * 30)
    let recency_score := min 30 ((recentCount articles now : ℚ) / 30 * 30)
    round2 (volume_score + diversity_score + recency_score)

end EnvironmentData

namespace SportsData

/-- `SportsDataPuller.calculate_pulse_score` (`DataPull/SportsData.py`):

```python
if not news_data or 'articles' not in news_data:
    return 0.0
articles = news_data.get('articles', [])
article_ratio = len(articles) / 100
volume_score = min(35, (article_ratio ** 0.7) * 35)
unique_sources = len(set(article.get('source', {}).get('name')
                         for article in articles if article.get('source')))
diversity_score = min(25, (unique_sources / 20) * 25)
now = datetime.now()
recent_articles = sum(1 for article in articles
                    if self._is_recent(article.get('publishedAt'), now))
recency_score = min(40, (recent_articles / 20) * 40)
...keyword loop (see keywordCount)...
keyword_intensity = min(15, (keyword_count / 30) * 15)
total_score = volume_score + diversity_score + recency_score + keyword_intensity
return round(min(100, total_score), 2)
```

The power `** 0.7` is modelled as the real power `Real.rpow` with exact
exponent `0.7 = 7/10`, so this scorer lives in `ℝ`. -/
noncomputable def calculate_pulse_score (news_data : Option NewsData) (now : ℤ) : ℝ :=
  match news_data with
  | none => 0
  | some nd =>
    let articles := nd.articles
    let volume_score : ℝ := min 35 (((articles.length : ℝ) / 100) ^ (0.7 : ℝ) * 35)
    let diversity_score : ℝ := min 25 ((uniqueSources articles : ℝ) / 20 * 25)
    let recency_score : ℝ := min 40 ((recentCount articles now : ℝ) / 20 * 40)
    let keyword_intensity : ℝ := min 15 ((keywordCount articles : ℝ) / 30 * 15)
    round2 (min 100 (volume_score + diversity_score + recency_score + keyword_intensity))

end SportsData

/-! ## Python/numpy float values for the normalization transform

`normalize_scores_relative` divides by the mean with no zero guard, and
numpy float division by zero produces `nan`/`inf` (a `RuntimeWarning`,
not an exception).  `PyFloat` extends `ℚ` with those values, with exactly
the operations the transform performs. -/

inductive PyFloat where
  | num (q : ℚ)
  | nan
  | inf
  | ninf
deriving DecidableEq

namespace PyFloat

/-- numpy float division `a / b` of two finite values: `0/0` is `nan`,
`a/0` is a signed infinity for `a ≠ 0`. -/
def pdiv (a b : ℚ) : PyFloat :=
  if b = 0 then
    if a = 0 then nan else if 0 < a then inf else ninf
  else num (a / b)

/-- Multiplication by a positive rational constant (the literals `2` and
`0.8` in the transform). -/
def mulPos (x : PyFloat) (c : ℚ) : PyFloat :=
  match x with
  | num a => num (a * c)
  | nan => nan
  | inf => inf
  | ninf => ninf

/-- `1 + x`. -/
def addOne (x : PyFloat) : PyFloat :=
  match x with
  | num a => num (1 + a)
  | nan => nan
  | inf => inf
  | ninf => ninf

/-- `s * x` for a finite left factor `s`. -/
def mulLeft (s : ℚ) (x : PyFloat) : PyFloat :=
  match x with
  | num a => num (s * a)
  | nan => nan
  | inf => if 0 < s then inf else if s < 0 then ninf else nan
  | ninf => if 0 < s then ninf else if s < 0 then inf else nan

/-- Python's builtin `min(c, x)` for a finite first argument `c`: it
returns `x` only when `x < c` evaluates to `True`.  `nan < c` is `False`,
so `min(c, nan)` is `c`. -/
def pymin (c : ℚ) (x : PyFloat) : PyFloat :=
  match x with
  | num a => if a < c then num a else num c
  | nan => num c
  | inf => num c
  | ninf => ninf

/-- `round(x, 2)`: the identity on `nan` and the infinities. -/
def pround2 (x : PyFloat) : PyFloat :=
  match x with
  | num a => num (round2 a)
  | nan => nan
  | inf => inf
  | ninf => ninf

end PyFloat

/-! ## Pulse records and the aggregator -/

/-- One per-category pulse record as built by `get_*_pulse`, or the
zero-valued placeholder from `collect_all_data`.  Python dicts may lack
the `timestamp`/`days_analyzed` keys (the placeholder does), hence the
`Option` fields. -/
structure PulseData where
  category : String
  pulse_score : ℚ
  article_count : ℕ
  total_results : ℕ
  timestamp : Option String := none
  days_analyzed : Option ℕ := none
deriving DecidableEq

/-- The record built by `normalize_scores_relative` for one input record:
`{**d, 'pulse_score': round(new_score, 2), 'original_score': original_score}`.
The new `pulse_score` is a `PyFloat` since the unguarded division can
produce non-finite values. -/
structure NormalizedPulseData where
  category : String
  pulse_score : PyFloat
  article_count : ℕ
  total_results : ℕ
  timestamp : Option String
  days_analyzed : Option ℕ
  original_score : ℚ
deriving DecidableEq

namespace RadarChart

/-- `np.mean(scores)` (only evaluated on nonempty input). -/
def avgScore (data : List PulseData) : ℚ :=
  (data.map (·.pulse_score)).sum / (data.length : ℚ)

/-- The per-entry arithmetic of `normalize_scores_relative`:

```python
if original_score >= avg_score:
    boost_factor = 1 + ((original_score - avg_score) / avg_score) * 2
    new_score = min(100, original_score * boost_factor)
else:
    suppress_factor = original_score / avg_score
    new_score = original_score * suppress_factor * 0.8
``` -/
def normalizeEntry (s avg : ℚ) : PyFloat :=
  if avg ≤ s then
    PyFloat.pymin 100 (PyFloat.mulLeft s (PyFloat.addOne (PyFloat.mulPos (PyFloat.pdiv (s - avg) avg) 2)))
  else
    PyFloat.mulPos (PyFloat.mulLeft s (PyFloat.pdiv s avg)) (8/10)

/-- `CulturePulseRadarChart.normalize_scores_relative` (`RadarChart.py`):
guard `if not data: return data`, then compute `avg_score = np.mean(scores)`
and map every record to
`{**d, 'pulse_score': round(new_score, 2), 'original_score': original_score}`.
(The code also evaluates the unused `max_score`/`min_score` after the
guard; they do not affect the result.) -/
def normalize_scores_relative (data : List PulseData) : List NormalizedPulseData :=
  match data with
  | [] => []
  | _ :: _ =>
    let avg := avgScore data
    data.map (fun d =>
      { category := d.category
        pulse_score := PyFloat.pround2 (normalizeEntry d.pulse_score avg)
        article_count := d.article_count
        total_results := d.total_results
        timestamp := d.timestamp
        days_analyzed := d.days_analyzed
        original_score := d.pulse_score })

/-- The fixed category order of `collect_all_data`'s `pullers` list. -/
def categoryNames : List String :=
  ["Sports", "Politics", "Tech/Science", "Economy",
   "Trends", "Entertainment", "Health", "Environment"]

/-- The zero-valued placeholder appended when fetching a category raises:
`{'category': category, 'pulse_score': 0, 'article_count': 0, 'total_results': 0}`. -/
def placeholder (category : String) : PulseData :=
  { category := category
    pulse_score := 0
    article_count := 0
    total_results := 0
    timestamp := none
    days_analyzed := none }

/-- `CulturePulseRadarChart.collect_all_data` (`RadarChart.py`): iterate
over the eight pullers in order; the body of the `try` is abstracted as
`fetch`, returning `none` when `puller.get_*_pulse(...)` raises (the
`except` branch appends the placeholder) and `some d` when it returns
record `d`. -/
def collect_all_data (fetch : String → Option PulseData) : List PulseData :=
  categoryNames.map (fun category =>
    match fetch category with
    | some d => d
    | none => placeholder category)

end RadarChart

/-! ## Helper lemmas -/

theorem mem_zip_map {α β : Type*} (f : α → β) (l : List α) :
    ∀ p ∈ l.zip (l.map f), p.2 = f p.1 := by
  induction l with
  | nil => intro p hp; simp at hp
  | cons a t ih =>
    intro p hp
    rw [List.map_cons, List.zip_cons_cons] at hp
    rcases List.mem_cons.mp hp with h | h
    · subst h; rfl
    · exact ih p h

theorem normalize_scores_relative_cons (a : PulseData) (t : List PulseData) :
    RadarChart.normalize_scores_relative (a :: t) =
      (a :: t).map (fun d =>
        { category := d.category
          pulse_score := PyFloat.pround2 (RadarChart.normalizeEntry d.pulse_score (RadarChart.avgScore (a :: t)))
          article_count := d.article_count
          total_results := d.total_results
          timestamp := d.timestamp
          days_analyzed := d.days_analyzed
          original_score := d.pulse_score }) := rfl

theorem avgScore_nil : RadarChart.avgScore [] = 0 := by
  simp [RadarChart.avgScore]

/-- The per-entry normalization arithmetic stays finite when the mean is
nonzero, and relative to a two-decimal score in `[0, 100]` the boost
branch never decreases and the suppress branch never increases. -/
theorem normalizeEntry_pround2_num {s avg : ℚ} (h0 : 0 ≤ s) (h100 : s ≤ 100)
    (hfix : round2 s = s) (hpos : 0 < avg) :
    ∃ q : ℚ, PyFloat.pround2 (RadarChart.normalizeEntry s avg) = PyFloat.num q ∧
      (avg ≤ s → s ≤ q) ∧ (s < avg → q ≤ s) := by
  have havg0 : avg ≠ 0 := ne_of_gt hpos
  by_cases hbr : avg ≤ s
  · have hdiv : PyFloat.pdiv (s - avg) avg = PyFloat.num ((s - avg) / avg) := by
      simp [PyFloat.pdiv, havg0]
    have hval : RadarChart.normalizeEntry s avg =
        PyFloat.pymin 100 (PyFloat.num (s * (1 + (s - avg) / avg * 2))) := by
      simp [RadarChart.normalizeEntry, hbr, hdiv, PyFloat.mulPos, PyFloat.addOne, PyFloat.mulLeft]
    have hB1 : 1 ≤ 1 + (s - avg) / avg * 2 := by
      have : 0 ≤ (s - avg) / avg := div_nonneg (by linarith) hpos.le
      linarith
    have hsB : s ≤ s * (1 + (s - avg) / avg * 2) := le_mul_of_one_le_right h0 hB1
    by_cases hlt : s * (1 + (s - avg) / avg * 2) < 100
    · refine ⟨round2 (s * (1 + (s - avg) / avg * 2)), ?_, ?_, ?_⟩
      · rw [hval]; simp [PyFloat.pymin, hlt, PyFloat.pround2]
      · intro _
        calc s = round2 s := hfix.symm
          _ ≤ round2 (s * (1 + (s - avg) / avg * 2)) := round2_mono hsB
      · intro hcon; linarith
    · refine ⟨100, ?_, ?_, ?_⟩
      · rw [hval]; simp [PyFloat.pymin, hlt, PyFloat.pround2, round2_hundred]
      · intro _; linarith
      · intro hcon; linarith
  · have hlt : s < avg := lt_of_not_le hbr
    have hdiv : PyFloat.pdiv s avg = PyFloat.num (s / avg) := by
      simp [PyFloat.pdiv, havg0]
    have hval : RadarChart.normalizeEntry s avg =
        PyFloat.num (s * (s / avg) * (8 / 10)) := by
      simp [RadarChart.normalizeEntry, hbr, hdiv, PyFloat.mulLeft, PyFloat.mulPos]
    have ht0 : 0 ≤ s / avg := div_nonneg h0 hpos.le
    have ht1 : s / avg ≤ 1 := by
      rw [div_le_one hpos]; linarith
    have hst : s * (s / avg) ≤ s := by nlinarith
    have hst0 : 0 ≤ s * (s / avg) := mul_nonneg h0 ht0
    have hvle : s * (s / avg) * (8 / 10) ≤ s := by nlinarith
    refine ⟨round2 (s * (s / avg) * (8 / 10)), ?_, ?_, ?_⟩
    · rw [hval]; simp [PyFloat.pround2]
    · intro hcon; linarith
    · intro _
      calc round2 (s * (s / avg) * (8 / 10)) ≤ round2 s := round2_mono hvle
        _ = s := hfix

/-! ## Concrete inputs used by counterexamples and witnesses -/

/-- A record carrying a zero pulse score (the shape of the zero-valued
placeholder). -/
def zeroRecord : PulseData :=
  { category := "Politics", pulse_score := 0, article_count := 0, total_results := 0 }

/-- A record whose raw score 200 exceeds the documented `[0, 100]` range. -/
def bigRecord : PulseData :=
  { category := "X", pulse_score := 200, article_count := 0, total_results := 0 }

def recA : PulseData :=
  { category := "A", pulse_score := 10, article_count := 0, total_results := 0 }

def recB : PulseData :=
  { category := "B", pulse_score := 30, article_count := 0, total_results := 0 }

/-- The output of normalizing `[recA, recB]` at index 0: score 10 is below
the mean 20, so it is suppressed to `10 * (10/20) * 0.8 = 4`. -/
def recANorm : NormalizedPulseData :=
  { category := "A", pulse_score := PyFloat.num 4, article_count := 0, total_results := 0,
    timestamp := none, days_analyzed := none, original_score := 10 }

/-- The output of normalizing the singleton `[recA]`: score 10 equals the
mean, the boost factor is 1, and the score is unchanged. -/
def recASolo : NormalizedPulseData :=
  { category := "A", pulse_score := PyFloat.num 10, article_count := 0, total_results := 0,
    timestamp := none, days_analyzed := none, original_score := 10 }

/-! ## Claim C10 -/

/-- Claim C10: the relative-normalization transform applied to an empty
score list returns the empty list unchanged; the guard `if not data`
returns before the mean, maximum, or minimum of the empty sequence is
evaluated. -/
theorem empty_normalization_passthrough :
    RadarChart.normalize_scores_relative [] = [] := rfl

/-! ## Claim C3 -/

/-- Claim C3 (divergence witness): on an all-zero score list the mean is
zero, yet the transform does not return the scores unchanged: the boost
branch divides by the zero mean (`nan` under numpy), `0 * nan` is `nan`,
and Python's `min(100, nan)` returns `100`, so every entry's
`pulse_score` becomes `100` instead of the claimed unchanged `0`. -/
theorem zero_mean_not_passthrough :
    RadarChart.avgScore [zeroRecord, zeroRecord] = 0 ∧
    (RadarChart.normalize_scores_relative [zeroRecord, zeroRecord]).map (·.pulse_score) =
      [PyFloat.num 100, PyFloat.num 100] ∧
    PyFloat.num (100 : ℚ) ≠ PyFloat.num 0 := by
  refine ⟨?_, ?_, by norm_num⟩
  · norm_num [RadarChart.avgScore, zeroRecord]
  · norm_num [RadarChart.normalize_scores_relative, RadarChart.avgScore,
      RadarChart.normalizeEntry, PyFloat.pdiv, PyFloat.mulPos, PyFloat.addOne,
      PyFloat.mulLeft, PyFloat.pymin, PyFloat.pround2, round2, rndHE, zeroRecord]

/-! ## Claim C5 -/

/-- Claim C5 (counterexample): the input list `[200]` has positive mean
200 and its only score satisfies `s ≥ avg`, yet the normalized value is
`min(100, 200) = 100 < 200`; the claim fails for scores above 100. -/
theorem boost_counterexample :
    0 < RadarChart.avgScore [bigRecord] ∧
    RadarChart.avgScore [bigRecord] ≤ bigRecord.pulse_score ∧
    (RadarChart.normalize_scores_relative [bigRecord]).map (·.pulse_score) =
      [PyFloat.num 100] ∧
    ¬ (bigRecord.pulse_score ≤ (100 : ℚ)) := by
  refine ⟨?_, ?_, ?_, ?_⟩
  · norm_num [RadarChart.avgScore, bigRecord]
  · norm_num [RadarChart.avgScore, bigRecord]
  · norm_num [RadarChart.normalize_scores_relative, RadarChart.avgScore,
      RadarChart.normalizeEntry, PyFloat.pdiv, PyFloat.mulPos, PyFloat.addOne,
      PyFloat.mulLeft, PyFloat.pymin, PyFloat.pround2, round2, rndHE, bigRecord]
  · norm_num [bigRecord]

/-- Claim C5 (amended): for every score list whose scores lie in `[0, 100]`
and are exact two-decimal values, if the mean is strictly positive then
each entry with score `s ≥ avg` normalizes to a finite value `≥ s` and
each entry with `s < avg` to a finite value `≤ s`. -/
theorem boost_suppress_monotone (data : List PulseData)
    (hall : ∀ d ∈ data, 0 ≤ d.pulse_score ∧ d.pulse_score ≤ 100 ∧
      round2 d.pulse_score = d.pulse_score)
    (hpos : 0 < RadarChart.avgScore data) :
    ∀ p ∈ data.zip (RadarChart.normalize_scores_relative data),
      ∃ q : ℚ, p.2.pulse_score = PyFloat.num q ∧
        (RadarChart.avgScore data ≤ p.1.pulse_score → p.1.pulse_score ≤ q) ∧
        (p.1.pulse_score < RadarChart.avgScore data → q ≤ p.1.pulse_score) := by
  intro p hp
  match data, hp with
  | a :: t, hp =>
    obtain ⟨x, y⟩ := p
    have hx : x ∈ a :: t := (List.of_mem_zip (by rwa [normalize_scores_relative_cons] at hp)).1
    obtain ⟨h0, h100, hfix⟩ := hall x hx
    rw [normalize_scores_relative_cons] at hp
    have hy := mem_zip_map _ _ _ hp
    simp only at hy
    rw [hy]
    exact normalizeEntry_pround2_num h0 h100 hfix hpos

/-- Witness for the amended claim C5 at the concrete list `[10, 30]`:
the below-average entry 10 is suppressed to `4 ≤ 10`. -/
theorem boost_suppress_monotone_witness :
    ∃ q : ℚ, recANorm.pulse_score = PyFloat.num q ∧
      (RadarChart.avgScore [recA, recB] ≤ recA.pulse_score → recA.pulse_score ≤ q) ∧
      (recA.pulse_score < RadarChart.avgScore [recA, recB] → q ≤ recA.pulse_score) := by
  have hnorm : RadarChart.normalize_scores_relative [recA, recB] = [recANorm,
      { category := "B", pulse_score := PyFloat.num 60, article_count := 0, total_results := 0,
        timestamp := none, days_analyzed := none, original_score := 30 }] := by
    norm_num [RadarChart.normalize_scores_relative, RadarChart.avgScore,
      RadarChart.normalizeEntry, PyFloat.pdiv, PyFloat.mulPos, PyFloat.addOne,
      PyFloat.mulLeft, PyFloat.pymin, PyFloat.pround2, round2, rndHE, recA, recB, recANorm]
  have hall : ∀ d ∈ [recA, recB], 0 ≤ d.pulse_score ∧ d.pulse_score ≤ 100 ∧
      round2 d.pulse_score = d.pulse_score := by
    intro d hd
    rcases List.mem_cons.mp hd with rfl | hd
    · exact ⟨by norm_num [recA], by norm_num [recA], by norm_num [recA, round2, rndHE]⟩
    · rcases List.mem_cons.mp hd with rfl | hd
      · exact ⟨by norm_num [recB], by norm_num [recB], by norm_num [recB, round2, rndHE]⟩
      · simp at hd
  have hpos : 0 < RadarChart.avgScore [recA, recB] := by
    norm_num [RadarChart.avgScore, recA, recB]
  have hmem : ((recA, recANorm) : PulseData × NormalizedPulseData) ∈
      ([recA, recB]).zip (RadarChart.normalize_scores_relative [recA, recB]) := by
    rw [hnorm]
    simp [List.zip]
  exact boost_suppress_monotone [recA, recB] hall hpos (recA, recANorm) hmem

/-! ## Claim C6 -/

/-- Claim C6: normalization produces one fresh record per input record;
`original_score` equals the input's `pulse_score`, and every other input
field (`category`, `article_count`, `total_results`, `timestamp`,
`days_analyzed`) is carried over unchanged. -/
theorem normalization_fields_carried (data : List PulseData) :
    (RadarChart.normalize_scores_relative data).length = data.length ∧
    ∀ p ∈ data.zip (RadarChart.normalize_scores_relative data),
      p.2.original_score = p.1.pulse_score ∧
      p.2.category = p.1.category ∧
      p.2.article_count = p.1.article_count ∧
      p.2.total_results = p.1.total_results ∧
      p.2.timestamp = p.1.timestamp ∧
      p.2.days_analyzed = p.1.days_analyzed := by
  match data with
  | [] => exact ⟨rfl, by intro p hp; simp at hp⟩
  | a :: t =>
    constructor
    · rw [normalize_scores_relative_cons, List.length_map]
    · intro p hp
      rw [normalize_scores_relative_cons] at hp
      have hy := mem_zip_map _ _ _ hp
      rw [hy]
      exact ⟨rfl, rfl, rfl, rfl, rfl, rfl⟩

/-- Witness for claim C6 at the singleton list `[recA]`. -/
theorem normalization_fields_carried_witness :
    recASolo.original_score = recA.pulse_score ∧
    recASolo.category = recA.category ∧
    recASolo.article_count = recA.article_count ∧
    recASolo.total_results = recA.total_results ∧
    recASolo.timestamp = recA.timestamp ∧
    recASolo.days_analyzed = recA.days_analyzed := by
  have hnorm : RadarChart.normalize_scores_relative [recA] = [recASolo] := by
    norm_num [RadarChart.normalize_scores_relative, RadarChart.avgScore,
      RadarChart.normalizeEntry, PyFloat.pdiv, PyFloat.mulPos, PyFloat.addOne,
      PyFloat.mulLeft, PyFloat.pymin, PyFloat.pround2, round2, rndHE, recA, recASolo]
  have hmem : ((recA, recASolo) : PulseData × NormalizedPulseData) ∈
      ([recA]).zip (RadarChart.normalize_scores_relative [recA]) := by
    rw [hnorm]
    simp [List.zip]
  exact (normalization_fields_carried [recA]).2 (recA, recASolo) hmem

/-! ## Claim C9 -/

/-- Claim C9: a failure fetching or scoring one category does not abort
the run; the returned list always has exactly one entry per configured
category, in the fixed order Sports, Politics, Tech/Science, Economy,
Trends, Entertainment, Health, Environment, and a failed category's entry
is the zero-valued placeholder for that category name. -/
theorem collect_per_category_isolation (fetch : String → Option PulseData) :
    (RadarChart.collect_all_data fetch).length = 8 ∧
    RadarChart.categoryNames = ["Sports", "Politics", "Tech/Science", "Economy",
      "Trends", "Entertainment", "Health", "Environment"] ∧
    ∀ p ∈ RadarChart.categoryNames.zip (RadarChart.collect_all_data fetch),
      (fetch p.1 = none → p.2 = RadarChart.placeholder p.1) ∧
      (∀ d, fetch p.1 = some d → p.2 = d) ∧
      (RadarChart.placeholder p.1).category = p.1 ∧
      (RadarChart.placeholder p.1).pulse_score = 0 ∧
      (RadarChart.placeholder p.1).article_count = 0 ∧
      (RadarChart.placeholder p.1).total_results = 0 := by
  refine ⟨rfl, rfl, ?_⟩
  intro p hp
  have hcoll : RadarChart.collect_all_data fetch =
      RadarChart.categoryNames.map (fun category =>
        match fetch category with
        | some d => d
        | none => RadarChart.placeholder category) := rfl
  rw [hcoll] at hp
  have hy := mem_zip_map
    (fun category => match fetch category with
      | some d => d
      | none => RadarChart.placeholder category) RadarChart.categoryNames p hp
  refine ⟨?_, ?_, rfl, rfl, rfl, rfl⟩
  · intro hnone
    rw [hy]
    simp [hnone]
  · intro d hd
    rw [hy]
    simp [hd]

/-- Witness for claim C9: when every fetch fails, the list still has
eight entries and the Sports entry is the Sports placeholder. -/
theorem collect_per_category_isolation_witness :
    (RadarChart.collect_all_data (fun _ => none)).length = 8 ∧
    ((("Sports", RadarChart.placeholder "Sports") :
        String × PulseData)).2 = RadarChart.placeholder "Sports" := by
  refine ⟨(collect_per_category_isolation (fun _ => none)).1, ?_⟩
  exact ((collect_per_category_isolation (fun _ => none)).2.2
    ("Sports", RadarChart.placeholder "Sports") (by decide)).1 rfl

/-! ## Claim C7 -/

/-- Claim C7 (divergence witness): `_is_recent` is `False` on missing and
malformed timestamps and implements the whole-day comparison for naive
timestamps (23h59m old is recent, 24h01m old is not) — but a parseable
timezone-aware timestamp, which is what every `Z`-suffixed API timestamp
parses to after `replace('Z', '+00:00')`, is never counted recent even
one hour after publication: the subtraction `now - pub_date` mixes the
naive `datetime.now()` with an aware datetime, raises `TypeError`, and
the bare `except` returns `False`.  The second conjunct shows this input
satisfies the claim's recency condition (it is less than one whole day
older than now). -/
theorem is_recent_divergence :
    is_recent (PubTs.aware (1760184000 - 3600)) 1760184000 = false ∧
    Int.fdiv (1760184000 - (1760184000 - 3600)) 86400 < 1 ∧
    is_recent (PubTs.naive (1760184000 - 86340)) 1760184000 = true ∧
    is_recent (PubTs.naive (1760184000 - 86460)) 1760184000 = false ∧
    is_recent PubTs.missing 1760184000 = false ∧
    is_recent PubTs.malformed 1760184000 = false := by
  refine ⟨rfl, by decide, by decide, by decide, rfl, rfl⟩

/-! ## Claim C8 -/

/-- An article with a truthy source dict whose `name` is the empty string. -/
def aEmptyName : Article :=
  { title := none, source := some (some ""), publishedAt := .missing }

/-- An article with a truthy source dict whose `name` is absent or `None`. -/
def aNoName : Article :=
  { title := none, source := some none, publishedAt := .missing }

/-- Claim C8 (counterexample): an article whose truthy source dict has an
empty or absent `name` still contributes a distinct value to the
unique-source count (the scorer filters on the truthiness of the source
dict, not on the name), raising the politics score of a single such
article to `0.4 + 1.5 = 1.9` where the claim predicts a diversity
contribution of zero. -/
theorem diversity_counts_empty_names :
    uniqueSources [aEmptyName] = 1 ∧
    uniqueSources [aNoName] = 1 ∧
    uniqueSources ([] : List Article) = 0 ∧
    PoliticsData.calculate_pulse_score
      (some { articles := [aEmptyName], totalResults := 1 }) 0 = 19/10 ∧
    ((19 : ℚ)/10) ≠ 2/5 := by
  have hu : uniqueSources [aEmptyName] = 1 := by decide
  have hr : recentCount [aEmptyName] 0 = 0 := by decide
  refine ⟨hu, by decide, by decide, ?_, by norm_num⟩
  norm_num [PoliticsData.calculate_pulse_score, hu, hr, round2, rndHE]

/-- Claim C8 (amended): the diversity count is the number of distinct
`name` values (an absent/`None` name and the empty-string name each
count as a value) among articles whose source entry is truthy; only an
article whose source entry is absent or falsy contributes nothing. -/
theorem diversity_source_truthiness (articles : List Article) (a : Article) :
    (a.source = none → uniqueSources (a :: articles) = uniqueSources articles) ∧
    (∀ v, a.source = some v → v ∈ sourceNames articles →
      uniqueSources (a :: articles) = uniqueSources articles) ∧
    (∀ v, a.source = some v → v ∉ sourceNames articles →
      uniqueSources (a :: articles) = uniqueSources articles + 1) := by
  refine ⟨?_, ?_, ?_⟩
  · intro hnone
    simp [uniqueSources, sourceNames, List.filterMap_cons, hnone]
  · intro v hv hmem
    have hsn : sourceNames (a :: articles) = v :: sourceNames articles := by
      simp [sourceNames, List.filterMap_cons, hv]
    unfold uniqueSources
    rw [hsn, List.dedup_cons_of_mem hmem]
  · intro v hv hmem
    have hsn : sourceNames (a :: articles) = v :: sourceNames articles := by
      simp [sourceNames, List.filterMap_cons, hv]
    unfold uniqueSources
    rw [hsn, List.dedup_cons_of_not_mem hmem, List.length_cons]

/-- Witness for the amended claim C8: prepending an article with source
value `None` to a list already containing the empty-string source adds a
new distinct value. -/
theorem diversity_source_truthiness_witness :
    uniqueSources [aNoName, aEmptyName] = uniqueSources [aEmptyName] + 1 := by
  exact (diversity_source_truthiness [aEmptyName] aNoName).2.2 none rfl (by decide)

/-! ## Claim C1 -/

/-- Claim C1: under the standard profile the pulse score is
`round2(min(40, n/100*40) + min(30, u/20*30) + min(30, r/30*30))` with
`n` the article count, `u` the distinct-source count and `r` the recent
count; the politics and tech scorers agree, and an absent or empty
article set scores exactly 0. -/
theorem standard_profile_score_formula :
    (∀ (nd : NewsData) (now : ℤ),
      PoliticsData.calculate_pulse_score (some nd) now =
        round2 (min 40 ((nd.articles.length : ℚ) / 100 * 40) +
          min 30 ((uniqueSources nd.articles : ℚ) / 20 * 30) +
          min 30 ((recentCount nd.articles now : ℚ) / 30 * 30)) ∧
      TechData.calculate_pulse_score (some nd) now =
        PoliticsData.calculate_pulse_score (some nd) now) ∧
    (∀ now : ℤ,
      PoliticsData.calculate_pulse_score none now = 0 ∧
      TechData.calculate_pulse_score none now = 0) ∧
    (∀ (tr : ℕ) (now : ℤ),
      PoliticsData.calculate_pulse_score
        (some { articles := [], totalResults := tr }) now = 0 ∧
      TechData.calculate_pulse_score
        (some { articles := [], totalResults := tr }) now = 0) := by
  refine ⟨fun nd now => ⟨rfl, rfl⟩, fun now => ⟨rfl, rfl⟩, fun tr now => ⟨?_, ?_⟩⟩
  · norm_num [PoliticsData.calculate_pulse_score, uniqueSources, sourceNames,
      recentCount, round2, rndHE]
  · norm_num [TechData.calculate_pulse_score, uniqueSources, sourceNames,
      recentCount, round2, rndHE]

/-! ## Claim C2 -/

/-- Modelled from the claim's words (claim C2): the high-intensity formula
with `k` taken as the total number of keyword occurrences summed across
all titles (`keywordOccurrenceTotal`), rather than the code's per-title
containment count. -/
noncomputable def claimSportsScore (articles : List Article) (now : ℤ) : ℝ :=
  round2 (min 100 (min 35 (((articles.length : ℝ) / 100) ^ (0.7 : ℝ) * 35) +
    min 25 ((uniqueSources articles : ℝ) / 20 * 25) +
    min 40 ((recentCount articles now : ℝ) / 20 * 40) +
    min 15 ((keywordOccurrenceTotal articles : ℝ) / 30 * 15)))

/-- An article whose title contains the keyword `win` twice. -/
def winArticle : Article :=
  { title := some "Win win", source := none, publishedAt := .missing }

/-- An article with no title, no source and no timestamp. -/
def blankArticle : Article :=
  { title := none, source := none, publishedAt := .missing }

/-- 100 articles: one titled `Win win`, 99 blank. -/
def sportsArticles : List Article :=
  winArticle :: List.replicate 99 blankArticle

set_option maxRecDepth 8000 in
/-- Claim C2 (counterexample): on 100 articles whose only title is
`Win win` the code counts the keyword `win` once (`kw in title` is a
containment test), scoring `round2(min(100, 35 + 0 + 0 + min(15, 1/30*15)))
= 35.5`, while the claim's occurrence count is 2, giving 36. -/
theorem keyword_occurrences_counterexample :
    SportsData.calculate_pulse_score
      (some { articles := sportsArticles, totalResults := 100 }) 0 = 71/2 ∧
    claimSportsScore sportsArticles 0 = 36 ∧
    ((71 : ℝ)/2) ≠ 36 := by
  have hn : sportsArticles.length = 100 := by
    simp [sportsArticles]
  have hu : uniqueSources sportsArticles = 0 := by decide
  have hr : recentCount sportsArticles 0 = 0 := by decide
  have hk : keywordCount sportsArticles = 1 := by decide
  have hko : keywordOccurrenceTotal sportsArticles = 2 := by decide
  have hbase : ((100 : ℕ) : ℝ) / 100 = 1 := by norm_num
  refine ⟨?_, ?_, by norm_num⟩
  · have hdef : SportsData.calculate_pulse_score
        (some { articles := sportsArticles, totalResults := 100 }) 0 =
        round2 (min 100 (min 35 (((sportsArticles.length : ℝ) / 100) ^ (0.7 : ℝ) * 35) +
          min 25 ((uniqueSources sportsArticles : ℝ) / 20 * 25) +
          min 40 ((recentCount sportsArticles 0 : ℝ) / 20 * 40) +
          min 15 ((keywordCount sportsArticles : ℝ) / 30 * 15))) := rfl
    rw [hdef, hn, hu, hr, hk, hbase, Real.one_rpow]
    have hE : min (100 : ℝ) (min 35 (1 * 35) + min 25 (((0 : ℕ) : ℝ) / 20 * 25) +
        min 40 (((0 : ℕ) : ℝ) / 20 * 40) + min 15 (((1 : ℕ) : ℝ) / 30 * 15)) = 71/2 := by
      norm_num [min_def]
    rw [hE]
    exact round2_eq_self_of_mul_hundred 3550 _ (by norm_num)
  · unfold claimSportsScore
    rw [hn, hu, hr, hko, hbase, Real.one_rpow]
    have hE : min (100 : ℝ) (min 35 (1 * 35) + min 25 (((0 : ℕ) : ℝ) / 20 * 25) +
        min 40 (((0 : ℕ) : ℝ) / 20 * 40) + min 15 (((2 : ℕ) : ℝ) / 30 * 15)) = 36 := by
      norm_num [min_def]
    rw [hE]
    exact round2_eq_self_of_mul_hundred 3600 _ (by norm_num)

/-- Claim C2 (amended): the high-intensity (sports) score equals
`round2(min(100, min(35, (n/100)^0.7*35) + min(25, u/20*25) +
min(40, r/20*40) + min(15, k/30*15)))` where `k` counts the
(article, keyword) pairs whose keyword occurs at least once in the
article's lowered title — each keyword contributing at most once per
title. -/
theorem sports_profile_score_formula (nd : NewsData) (now : ℤ) :
    SportsData.calculate_pulse_score (some nd) now =
      round2 (min 100 (min 35 (((nd.articles.length : ℝ) / 100) ^ (0.7 : ℝ) * 35) +
        min 25 ((uniqueSources nd.articles : ℝ) / 20 * 25) +
        min 40 ((recentCount nd.articles now : ℝ) / 20 * 40) +
        min 15 ((keywordTitlePairs nd.articles : ℝ) / 30 * 15))) := by
  have hdef : SportsData.calculate_pulse_score (some nd) now =
      round2 (min 100 (min 35 (((nd.articles.length : ℝ) / 100) ^ (0.7 : ℝ) * 35) +
        min 25 ((uniqueSources nd.articles : ℝ) / 20 * 25) +
        min 40 ((recentCount nd.articles now : ℝ) / 20 * 40) +
        min 15 ((keywordCount nd.articles : ℝ) / 30 * 15))) := rfl
  rw [hdef, keywordCount_eq_keywordTitlePairs]

/-! ## Claim C4 -/

theorem standard_formula_bounds (n u r : ℕ) :
    0 ≤ round2 (min 40 ((n : ℚ) / 100 * 40) + min 30 ((u : ℚ) / 20 * 30) +
        min 30 ((r : ℚ) / 30 * 30)) ∧
      round2 (min 40 ((n : ℚ) / 100 * 40) + min 30 ((u : ℚ) / 20 * 30) +
        min 30 ((r : ℚ) / 30 * 30)) ≤ 100 := by
  have h1 : (0 : ℚ) ≤ min 40 ((n : ℚ) / 100 * 40) := le_min (by norm_num) (by positivity)
  have h1b := min_le_left (40 : ℚ) ((n : ℚ) / 100 * 40)
  have h2 : (0 : ℚ) ≤ min 30 ((u : ℚ) / 20 * 30) := le_min (by norm_num) (by positivity)
  have h2b := min_le_left (30 : ℚ) ((u : ℚ) / 20 * 30)
  have h3 : (0 : ℚ) ≤ min 30 ((r : ℚ) / 30 * 30) := le_min (by norm_num) (by positivity)
  have h3b := min_le_left (30 : ℚ) ((r : ℚ) / 30 * 30)
  exact ⟨round2_nonneg (by linarith), round2_le_hundred (by linarith)⟩

theorem sports_formula_bounds (n u r k : ℕ) :
    0 ≤ round2 (min 100 (min 35 (((n : ℝ) / 100) ^ (0.7 : ℝ) * 35) +
        min 25 ((u : ℝ) / 20 * 25) + min 40 ((r : ℝ) / 20 * 40) +
        min 15 ((k : ℝ) / 30 * 15))) ∧
      round2 (min 100 (min 35 (((n : ℝ) / 100) ^ (0.7 : ℝ) * 35) +
        min 25 ((u : ℝ) / 20 * 25) + min 40 ((r : ℝ) / 20 * 40) +
        min 15 ((k : ℝ) / 30 * 15))) ≤ 100 := by
  have hv : (0 : ℝ) ≤ ((n : ℝ) / 100) ^ (0.7 : ℝ) * 35 :=
    mul_nonneg (Real.rpow_nonneg (by positivity) _) (by norm_num)
  have h1 : (0 : ℝ) ≤ min 35 (((n : ℝ) / 100) ^ (0.7 : ℝ) * 35) := le_min (by norm_num) hv
  have h2 : (0 : ℝ) ≤ min 25 ((u : ℝ) / 20 * 25) := le_min (by norm_num) (by positivity)
  have h3 : (0 : ℝ) ≤ min 40 ((r : ℝ) / 20 * 40) := le_min (by norm_num) (by positivity)
  have h4 : (0 : ℝ) ≤ min 15 ((k : ℝ) / 30 * 15) := le_min (by norm_num) (by positivity)
  have hT : (0 : ℝ) ≤ min 100 (min 35 (((n : ℝ) / 100) ^ (0.7 : ℝ) * 35) +
      min 25 ((u : ℝ) / 20 * 25) + min 40 ((r : ℝ) / 20 * 40) +
      min 15 ((k : ℝ) / 30 * 15)) := le_min (by norm_num) (by linarith)
  have hT100 := min_le_left (100 : ℝ) (min 35 (((n : ℝ) / 100) ^ (0.7 : ℝ) * 35) +
      min 25 ((u : ℝ) / 20 * 25) + min 40 ((r : ℝ) / 20 * 40) +
      min 15 ((k : ℝ) / 30 * 15))
  exact ⟨round2_nonneg hT, round2_le_hundred hT100⟩

/-- Claim C4: under every profile (standard in `ℚ`, high-intensity in `ℝ`)
and for every input — including `none` and article sets maximizing the
sports keyword bonus — the pulse score lies in `[0, 100]`. -/
theorem pulse_score_in_range (nd : Option NewsData) (now : ℤ) :
    (0 ≤ PoliticsData.calculate_pulse_score nd now ∧
      PoliticsData.calculate_pulse_score nd now ≤ 100) ∧
    (0 ≤ TechData.calculate_pulse_score nd now ∧
      TechData.calculate_pulse_score nd now ≤ 100) ∧
    (0 ≤ EnvironmentData.calculate_pulse_score nd now ∧
      EnvironmentData.calculate_pulse_score nd now ≤ 100) ∧
    (0 ≤ SportsData.calculate_pulse_score nd now ∧
      SportsData.calculate_pulse_score nd now ≤ 100) := by
  rcases nd with _ | nd
  · refine ⟨⟨le_refl 0, ?_⟩, ⟨le_refl 0, ?_⟩, ⟨le_refl 0, ?_⟩, ⟨?_, ?_⟩⟩ <;>
      norm_num [PoliticsData.calculate_pulse_score, TechData.calculate_pulse_score,
        EnvironmentData.calculate_pulse_score, SportsData.calculate_pulse_score]
  · have hp : PoliticsData.calculate_pulse_score (some nd) now =
        round2 (min 40 ((nd.articles.length : ℚ) / 100 * 40) +
          min 30 ((uniqueSources nd.articles : ℚ) / 20 * 30) +
          min 30 ((recentCount nd.articles now : ℚ) / 30 * 30)) := rfl
    have ht : TechData.calculate_pulse_score (some nd) now =
        round2 (min 40 ((nd.articles.length : ℚ) / 100 * 40) +
          min 30 ((uniqueSources nd.articles : ℚ) / 20 * 30) +
          min 30 ((recentCount nd.articles now : ℚ) / 30 * 30)) := rfl
    have he : EnvironmentData.calculate_pulse_score (some nd) now =
        round2 (min 40 ((nd.articles.length : ℚ) / 100 * 40) +
          min 30 ((uniqueSources nd.articles : ℚ) / 20 * 30) +
          min 30 ((recentCount nd.articles now : ℚ) / 30 * 30)) := rfl
    have hs : SportsData.calculate_pulse_score (some nd) now =
        round2 (min 100 (min 35 (((nd.articles.length : ℝ) / 100) ^ (0.7 : ℝ) * 35) +
          min 25 ((uniqueSources nd.articles : ℝ) / 20 * 25) +
          min 40 ((recentCount nd.articles now : ℝ) / 20 * 40) +
          min 15 ((keywordCount nd.articles : ℝ) / 30 * 15))) := rfl
    rw [hp, ht, he, hs]
    exact ⟨standard_formula_bounds _ _ _, standard_formula_bounds _ _ _,
      standard_formula_bounds _ _ _, sports_formula_bounds _ _ _ _⟩

end CulturePulse
